import Mathlib

/-!
Shallow embedding of `src/main.py` of the Chimera updater.

The program shells out to the host package manager.  We model the
operating system as an oracle `Env` giving, for every shell command
line, either the completed process (exit code, stdout, stderr) or a
launch failure, and translate each Python function into a Lean
function over that oracle.  Python exceptions become an explicit
`Except PyExc` result; Python `None` becomes `Option.none`.
-/

/-- Model of `subprocess.CompletedProcess` restricted to the fields the program
reads: `returncode`, `stdout`, `stderr`. -/
structure CommandResult where
  returncode : Int
  stdout : String
  stderr : String
deriving Repr, DecidableEq

/-- The Python exception values this program can raise or observe. -/
inductive PyExc where
  | osError (cause : String)
  | calledProcessError (returncode : Int)
  | exception (msg : String)
  | attributeError (attr : String)
  | nameError (missing : String)
deriving Repr, DecidableEq

/-- How the operating system responds to launching one shell command
line: the process completes (any exit code), or the launch itself
fails (shell or binary unavailable). -/
inductive LaunchOutcome where
  | completed (r : CommandResult)
  | launchFailure (cause : String)
deriving Repr, DecidableEq

/-- A simulated environment: the launch outcome of every command line. -/
abbrev Env := String → LaunchOutcome

/-- Model of `subprocess.run(cmd, shell=True, capture_output=True, text=True)`:
without `check=True` it returns the completed process whatever the exit
code, and raises `OSError` on launch failure.  It never raises
`CalledProcessError` (that requires `check=True`). -/
def subprocessRun (env : Env) (cmd : String) : Except PyExc CommandResult :=
  match env cmd with
  | .completed r => .ok r
  | .launchFailure cause => .error (.osError cause)

/-- Model of `run_command` (src/main.py lines 150-159).  The `try` body binds
`result`, prints it and logs stderr, but has no `return` statement, so
Python returns `None`: modeled as `Option.none`.  The `except` clause
catches only `subprocess.CalledProcessError`, re-raising
`Exception("Failed to run command: " ++ cmd)`; every other exception
propagates unchanged. -/
def run_command (env : Env) (cmd : String) : Except PyExc (Option CommandResult) :=
  match subprocessRun env cmd with
  | .ok _result => .ok none
  | .error (.calledProcessError _) =>
      .error (.exception ("Failed to run command: " ++ cmd))
  | .error e => .error e

/-- Python `s.startswith(pre)`: list-level prefix test on the
characters. -/
def pyStartsWith (s pre : String) : Bool :=
  pre.data.isPrefixOf s.data

/-- Python `s[n:]`: drop the first `n` characters. -/
def pyDropChars (s : String) (n : Nat) : String :=
  String.mk (s.data.drop n)

/-- Python `s.strip()`: remove whitespace from both ends. -/
def pyStrip (s : String) : String :=
  String.mk (((s.data.dropWhile Char.isWhitespace).reverse.dropWhile Char.isWhitespace).reverse)

/-- A package-manager instance: the three command templates assigned in
`PackageManager.__init__` and the subclass constructors. -/
structure PackageManager where
  check_updates_cmd : String
  count_updates_cmd : String
  upgrade_cmd : String
deriving Repr, DecidableEq

/-- Model of `PackageManager.__init__`: all three templates empty. -/
def basePackageManager : PackageManager :=
  { check_updates_cmd := "", count_updates_cmd := "", upgrade_cmd := "" }

/-- The 34 spaces indenting the continuation line of the apt
count-updates string literal (the Python string is continued over a
line break with a backslash, so the indentation is part of the
string). -/
def contIndent : String := String.mk (List.replicate 34 (Char.ofNat 32))

/-- A single-quote character, written by code point. -/
def squote : String := String.mk [Char.ofNat 39]

/-- The exact value of `AptManager.count_updates_cmd` (lines 189-190):
one space before the backslash plus the 34-space indentation of the
continuation line sit between `--allow-change-held-packages` and
`--allow-unauthenticated`. -/
def aptCountUpdatesCmd : String :=
  "apt-get -q -y --ignore-hold --allow-change-held-packages " ++ contIndent ++
    "--allow-unauthenticated -s dist-upgrade | grep ^Inst | wc -l"

/-- Model of `AptManager.__init__` (lines 186-191). -/
def aptManager : PackageManager :=
  { basePackageManager with
    check_updates_cmd := "apt-get -q update"
    count_updates_cmd := aptCountUpdatesCmd
    upgrade_cmd := "apt upgrade -y" }

/-- Model of `NalaManager.__init__` (lines 197-199): runs `AptManager.__init__`
then overrides only `upgrade_cmd`. -/
def nalaManager : PackageManager :=
  { aptManager with upgrade_cmd := "nala upgrade -y" }

/-- Model of `DnfManager.__init__` (lines 205-209). -/
def dnfManager : PackageManager :=
  { basePackageManager with
    check_updates_cmd := "dnf check-update"
    count_updates_cmd := "dnf check-update | grep -v " ++ squote ++ "^$" ++ squote ++ " | wc -l"
    upgrade_cmd := "dnf upgrade" }

/-- Model of `PacmanManager.__init__` (lines 215-219). -/
def pacmanManager : PackageManager :=
  { basePackageManager with
    check_updates_cmd := "pacman -Qu"
    count_updates_cmd := "pacman -Qu | wc -l"
    upgrade_cmd := "pacman -Syu" }

/-- Model of `DistroCheck.__init__` (lines 228-235): the support table
`self.package_managers`, in source order; each value is the ordered
candidate list of (tool name, constructed backend). -/
def package_managers : List (String × List (String × PackageManager)) :=
  [("debian", [("nala", nalaManager), ("apt", aptManager)]),
   ("ubuntu", [("nala", nalaManager), ("apt", aptManager)]),
   ("fedora", [("dnf", dnfManager)]),
   ("arch", [("pacman", pacmanManager)]),
   ("arcolinux", [("pacman", pacmanManager)])]

/-- Model of `self.package_managers.get(self.distro_id)`. -/
def tableGet (d : String) : Option (List (String × PackageManager)) :=
  (package_managers.find? (fun p => p.1 == d)).map (fun p => p.2)

/-- The candidate loop of `get_package_manager_for_distro`: probe each
tool in list order with `is_tool_available` (abstracted as the oracle
`avail`), returning the first backend whose tool is present together
with the list of tools actually probed. -/
def firstAvailable (avail : String → Bool) :
    List (String × PackageManager) → Option PackageManager × List String
  | [] => (none, [])
  | t :: rest =>
    if avail t.1 then (some t.2, [t.1])
    else ((firstAvailable avail rest).1, t.1 :: (firstAvailable avail rest).2)

/-- The second half of `get_package_manager_for_distro`: the `for` loop
over the candidate options and the final `raise` (lines 268-273). -/
def selectBackend (avail : String → Bool) (distro_id : String)
    (options : List (String × PackageManager)) :
    Except PyExc PackageManager × List String :=
  match (firstAvailable avail options).1 with
  | some pm => (.ok pm, (firstAvailable avail options).2)
  | none =>
    (.error (.exception ("No supported package manager available for distro: " ++ distro_id)),
     (firstAvailable avail options).2)

/-- Model of `DistroCheck.get_package_manager_for_distro` (lines 252-273), with
`is_tool_available` (a `which <name>` exit-code check, lines 275-282)
abstracted as the oracle `avail`.  The second component records every
tool probed. -/
def get_package_manager_for_distro (avail : String → Bool) (distro_id : String) :
    Except PyExc PackageManager × List String :=
  match tableGet distro_id with
  | none =>
    (.error (.exception ("No supported package manager found for distro: " ++ distro_id)), [])
  | some options => selectBackend avail distro_id options

/-- Model of `DistroCheck.get_distro_id` (lines 237-250).  The release file is
either an OS error cause (`open` failed) or the list of lines that
`readlines` returns.  The source scans for the first line starting
with "ID=", returns `line[3:].strip()`, and otherwise raises; the
`except` clause only logs and re-raises the same exception. -/
def get_distro_id (file : Except String (List String)) : Except PyExc String :=
  match file with
  | .error cause => .error (.osError cause)
  | .ok lines =>
    match lines.find? (fun l => pyStartsWith l "ID=") with
    | some line => .ok (pyStrip (pyDropChars line 3))
    | none => .error (.exception "Could not determine distro from /etc/os-release")

/-- Digit-string to number, for `int()`. -/
def digitsToNat (digits : String) : Nat :=
  digits.data.foldl (fun acc c => acc * 10 + (c.toNat - 48)) 0

/-- Python `int(s)`: after stripping, an optional sign followed by at
least one decimal digit; `ValueError` modeled as `none`. -/
def pyInt? (s : String) : Option Int :=
  let t := pyStrip s
  let digits := if pyStartsWith t "-" || pyStartsWith t "+" then pyDropChars t 1 else t
  if digits.data.length = 0 then none
  else if digits.data.all Char.isDigit then
    some (if pyStartsWith t "-" then -(digitsToNat digits : Int) else (digitsToNat digits : Int))
  else none

/-- The calls `run_update_check`/`run_upgrade` schedule on the GTK
main loop via `GLib.idle_add`. -/
inductive UiEvent where
  | showError (msg : String)
  | updateResults (updates : Int)
  | updateAfterUpgrade
deriving Repr, DecidableEq

/-- Model of `ChimeraWindow.run_update_check` (lines 97-111), faithful to the
traced control flow: `check_updates` is run twice (once inside the
`print`), `count_updates` is never called, the `None` that
`run_command` returns is dereferenced (`update_process.returncode`
raises `AttributeError`), and the bare `return` on line 110 makes the
`update_results` dispatch on line 111 unreachable, so a successful
parse schedules no event. -/
def run_update_check (pm : PackageManager) (env : Env) : Except PyExc (List UiEvent) :=
  match run_command env pm.check_updates_cmd with
  | .error e => .error e
  | .ok _printed =>
    match run_command env pm.check_updates_cmd with
    | .error e => .error e
    | .ok none => .error (.attributeError "returncode")
    | .ok (some update_process) =>
      if update_process.returncode ≠ 0 then
        .ok [.showError "Unable to check for updates"]
      else
        match pyInt? (pyStrip update_process.stdout) with
        | none => .ok [.showError "Unable to parse update count"]
        | some _updates => .ok []

/-- Model of `ChimeraWindow.run_upgrade` (lines 123-129): `upgrade()` returns
`run_command`'s `None`, so `.returncode` raises `AttributeError`; were
a result present, the dispatch would be on the exit code, the failure
branch showing the fixed message with no exit code in it. -/
def run_upgrade (pm : PackageManager) (env : Env) : Except PyExc (List UiEvent) :=
  match run_command env pm.upgrade_cmd with
  | .error e => .error e
  | .ok none => .error (.attributeError "returncode")
  | .ok (some upgrade_process) =>
    if upgrade_process.returncode ≠ 0 then
      .ok [.showError "Unable to perform upgrade"]
    else
      .ok [.updateAfterUpgrade]

/-- Model of `ChimeraWindow.send_notification` (lines 139-147).  The input is
whether `subprocess.run(["notify-send", ...])` raises.  When it does,
the `except` clause evaluates an f-string whose interpolation names
the variable `cmd`, which is bound nowhere in the method or module
scope, so Python raises `NameError` for `cmd` before the intended
`Exception` is even built; when it does not raise, the method returns
normally. -/
def sendNotification (launch : Except String Unit) : Except PyExc Unit :=
  match launch with
  | .ok _ => .ok ()
  | .error _e => .error (.nameError "cmd")

/-- The spec table's Apt count template, written from the spec's row
(single spaces throughout), for comparison with the source constant. -/
def spec_apt_count_cmd : String :=
  "apt-get -q -y --ignore-hold --allow-change-held-packages --allow-unauthenticated -s dist-upgrade | grep ^Inst | wc -l"

/-- The spec table's Dnf count template, written from the spec's row. -/
def spec_dnf_count_cmd : String :=
  "dnf check-update | grep -v " ++ squote ++ "^$" ++ squote ++ " | wc -l"

/-- Collapse each run of spaces to a single space (`prevSpace` records
whether the previous kept character was a space). -/
def collapseSpacesAux : Bool → List Char → List Char
  | _, [] => []
  | prevSpace, c :: rest =>
    if c = Char.ofNat 32 then
      if prevSpace then collapseSpacesAux true rest
      else c :: collapseSpacesAux true rest
    else c :: collapseSpacesAux false rest

/-- Collapse space runs in a string. -/
def normSpaces (s : String) : String := String.mk (collapseSpacesAux false s.data)

/-- Environments used at concrete inputs. -/
def envAllSucceed : Env := fun _ => .completed ⟨0, "5\n", ""⟩

def envLaunchFails : Env := fun _ => .launchFailure "No such file or directory"

/-! Helper lemmas about `List.find?` and the candidate loop. -/

/-- When `find?` returns a hit, the list splits around the hit and every
earlier element fails the predicate. -/
theorem find?_split {α : Type} (p : α → Bool) (l : List α) (a : α) (h : l.find? p = some a) :
    ∃ pre post, l = pre ++ a :: post ∧ (∀ x ∈ pre, p x = false) ∧ p a = true := by
  induction l with
  | nil => simp [List.find?] at h
  | cons x xs ih =>
    rw [List.find?] at h
    cases hx : p x with
    | true =>
      rw [hx] at h
      simp only [Option.some.injEq] at h
      subst h
      refine ⟨[], xs, rfl, ?_, hx⟩
      intro y hy
      cases hy
    | false =>
      rw [hx] at h
      obtain ⟨pre, post, heq, hpre, hpa⟩ := ih h
      refine ⟨x :: pre, post, by rw [heq]; rfl, ?_, hpa⟩
      intro y hy
      cases hy with
      | head => exact hx
      | tail _ hy2 => exact hpre y hy2

/-- When every element fails the predicate, `find?` returns nothing. -/
theorem find?_eq_none_of_all {α : Type} (p : α → Bool) (l : List α)
    (h : ∀ x ∈ l, p x = false) : l.find? p = none := by
  induction l with
  | nil => rfl
  | cons x xs ih =>
    rw [List.find?]
    rw [h x (List.mem_cons_self x xs)]
    exact ih (fun y hy => h y (List.mem_cons_of_mem x hy))

/-- When some member satisfies the predicate, `find?` returns a hit. -/
theorem find?_isSome_of_mem {α : Type} (p : α → Bool) (l : List α) (a : α)
    (ha : a ∈ l) (hp : p a = true) : ∃ b, l.find? p = some b := by
  induction l with
  | nil => cases ha
  | cons x xs ih =>
    rw [List.find?]
    cases hx : p x with
    | true => exact ⟨x, rfl⟩
    | false =>
      have : a ∈ xs := by
        cases ha with
        | head => rw [hx] at hp; cases hp
        | tail _ h2 => exact h2
      exact ih this

/-- The candidate loop returns no backend exactly when no candidate tool
is available. -/
theorem firstAvailable_fst_none (avail : String → Bool) (l : List (String × PackageManager)) :
    (firstAvailable avail l).1 = none ↔ ∀ t ∈ l, avail t.1 = false := by
  induction l with
  | nil => simp [firstAvailable]
  | cons x xs ih =>
    cases hx : avail x.1 with
    | true => simp [firstAvailable, hx]
    | false => simp [firstAvailable, hx, ih]

/-- A backend returned by the candidate loop belongs to an available
candidate. -/
theorem firstAvailable_fst_some (avail : String → Bool) (l : List (String × PackageManager))
    (pm : PackageManager) (h : (firstAvailable avail l).1 = some pm) :
    ∃ t ∈ l, avail t.1 = true ∧ t.2 = pm := by
  induction l with
  | nil => simp [firstAvailable] at h
  | cons x xs ih =>
    cases hx : avail x.1 with
    | true =>
      rw [firstAvailable, if_pos hx] at h
      simp only [Option.some.injEq] at h
      exact ⟨x, List.mem_cons_self x xs, hx, h⟩
    | false =>
      rw [firstAvailable, if_neg (by simp [hx])] at h
      obtain ⟨t, ht, hav, hpm⟩ := ih h
      exact ⟨t, List.mem_cons_of_mem x ht, hav, hpm⟩

/-- The candidate loop returns a backend exactly when some candidate
tool is available. -/
theorem firstAvailable_fst_isSome (avail : String → Bool) (l : List (String × PackageManager)) :
    (∃ pm, (firstAvailable avail l).1 = some pm) ↔ ∃ t ∈ l, avail t.1 = true := by
  constructor
  · rintro ⟨pm, h⟩
    obtain ⟨t, ht, hav, -⟩ := firstAvailable_fst_some avail l pm h
    exact ⟨t, ht, hav⟩
  · rintro ⟨t, ht, hav⟩
    cases hfa : (firstAvailable avail l).1 with
    | some pm => exact ⟨pm, rfl⟩
    | none =>
      rw [firstAvailable_fst_none] at hfa
      rw [hfa t ht] at hav
      cases hav

/-- The two resolver error messages differ for every distro id (their
fixed parts have different lengths). -/
theorem resolveMsgs_ne (d : String) :
    ("No supported package manager found for distro: " ++ d : String) ≠
      ("No supported package manager available for distro: " ++ d : String) := by
  intro h
  have h2 := congrArg String.length h
  rw [String.length_append, String.length_append] at h2
  have e1 : ("No supported package manager found for distro: " : String).length ≠
      ("No supported package manager available for distro: " : String).length := by decide
  omega

/-- Evaluation of the resolver when the distro is not a table key. -/
theorem resolve_eval_unsupported (avail : String → Bool) (d : String) (h : tableGet d = none) :
    get_package_manager_for_distro avail d =
      (Except.error (PyExc.exception ("No supported package manager found for distro: " ++ d)),
       []) := by
  unfold get_package_manager_for_distro
  rw [h]

/-- Evaluation of the resolver when the distro is a table key. -/
theorem resolve_eval_found (avail : String → Bool) (d : String)
    (opts : List (String × PackageManager)) (h : tableGet d = some opts) :
    get_package_manager_for_distro avail d = selectBackend avail d opts := by
  unfold get_package_manager_for_distro
  rw [h]

/-- Evaluation of the candidate loop when a tool is available. -/
theorem selectBackend_eval_ok (avail : String → Bool) (d : String)
    (opts : List (String × PackageManager)) (pm : PackageManager)
    (hfa : (firstAvailable avail opts).1 = some pm) :
    selectBackend avail d opts = (Except.ok pm, (firstAvailable avail opts).2) := by
  unfold selectBackend
  rw [hfa]

/-- Evaluation of the candidate loop when no tool is available. -/
theorem selectBackend_eval_err (avail : String → Bool) (d : String)
    (opts : List (String × PackageManager))
    (hfa : (firstAvailable avail opts).1 = none) :
    selectBackend avail d opts =
      (Except.error (PyExc.exception ("No supported package manager available for distro: " ++ d)),
       (firstAvailable avail opts).2) := by
  unfold selectBackend
  rw [hfa]

/-- Evaluation of `get_distro_id` on a readable file. -/
theorem get_distro_id_eval_ok (lines : List String) :
    get_distro_id (Except.ok lines) =
      (match lines.find? (fun l => pyStartsWith l "ID=") with
       | some line => Except.ok (pyStrip (pyDropChars line 3))
       | none => Except.error (PyExc.exception "Could not determine distro from /etc/os-release")) :=
  rfl

/-! Claim theorems. -/

/-- C1 (code_bug): in an environment where the check command launches
and exits 0 with stdout "5", `run_update_check` neither invokes
`count_updates` nor yields UpdatesAvailable(5): `check_updates` returns
the `None` that `run_command` produced, and dereferencing
`update_process.returncode` raises `AttributeError`; moreover the
dispatch of a successfully parsed count (line 111) sits after a bare
`return` and is unreachable. -/
theorem run_update_check_crashes :
    run_update_check aptManager envAllSucceed = Except.error (PyExc.attributeError "returncode")
  ∧ envAllSucceed aptManager.check_updates_cmd = LaunchOutcome.completed ⟨0, "5\n", ""⟩ :=
  ⟨rfl, rfl⟩

/-- C2 (code_bug): on a successfully launched command `run_command`
returns Python `None` (here `Option.none`), not the CommandResult, for
zero and non-zero exit codes alike: its body has no `return`
statement. -/
theorem run_command_returns_none :
    run_command envAllSucceed "true" = Except.ok none
  ∧ run_command (fun _ => LaunchOutcome.completed ⟨1, "", "boom"⟩) "false" = Except.ok none :=
  ⟨rfl, rfl⟩

/-- C3 (confirmed): for every distro in the support table, with every
candidate tool available the resolver returns the first-listed backend
(for debian probing only "nala"); with only the second-listed tool
available it returns the second backend, probing "nala" then "apt" in
table order; and the two backends are distinct values. -/
theorem resolve_preference_order :
    (get_package_manager_for_distro (fun _ => true) "debian").1 = Except.ok nalaManager
  ∧ (get_package_manager_for_distro (fun _ => true) "ubuntu").1 = Except.ok nalaManager
  ∧ (get_package_manager_for_distro (fun _ => true) "fedora").1 = Except.ok dnfManager
  ∧ (get_package_manager_for_distro (fun _ => true) "arch").1 = Except.ok pacmanManager
  ∧ (get_package_manager_for_distro (fun _ => true) "arcolinux").1 = Except.ok pacmanManager
  ∧ (get_package_manager_for_distro (fun _ => true) "debian").2 = ["nala"]
  ∧ (get_package_manager_for_distro (fun t => t == "apt") "debian").1 = Except.ok aptManager
  ∧ (get_package_manager_for_distro (fun t => t == "apt") "ubuntu").1 = Except.ok aptManager
  ∧ (get_package_manager_for_distro (fun t => t == "apt") "debian").2 = ["nala", "apt"]
  ∧ aptManager ≠ nalaManager :=
  ⟨rfl, rfl, rfl, rfl, rfl, rfl, rfl, rfl, rfl, by decide⟩

/-- C4 (confirmed): the resolver fails with the unsupported-distro
message exactly when the distro id is not a table key, probing no tool
in that case; it fails with the no-available-backend message exactly
when the id is a key but every candidate tool is unavailable; and it
returns a backend exactly when the id is a key and some candidate tool
is available. -/
theorem resolve_error_cases (avail : String → Bool) (d : String) :
    ((get_package_manager_for_distro avail d).1 =
        Except.error (PyExc.exception ("No supported package manager found for distro: " ++ d))
      ↔ tableGet d = none)
  ∧ (tableGet d = none → (get_package_manager_for_distro avail d).2 = [])
  ∧ ((get_package_manager_for_distro avail d).1 =
        Except.error (PyExc.exception ("No supported package manager available for distro: " ++ d))
      ↔ ∃ opts, tableGet d = some opts ∧ ∀ t ∈ opts, avail t.1 = false)
  ∧ ((∃ pm, (get_package_manager_for_distro avail d).1 = Except.ok pm)
      ↔ ∃ opts, tableGet d = some opts ∧ ∃ t ∈ opts, avail t.1 = true) := by
  cases htg : tableGet d with
  | none =>
    rw [resolve_eval_unsupported avail d htg]
    refine ⟨by simp, fun _ => rfl, ?_, ?_⟩
    · simp only [false_iff, iff_false]
      constructor
      · intro h
        simp only [Except.error.injEq, PyExc.exception.injEq] at h
        exact absurd h (resolveMsgs_ne d)
      · rintro ⟨opts, hopts, -⟩
        cases hopts
    · constructor
      · rintro ⟨pm, hpm⟩
        cases hpm
      · rintro ⟨opts, hopts, -⟩
        cases hopts
  | some opts =>
    rw [resolve_eval_found avail d opts htg]
    cases hfa : (firstAvailable avail opts).1 with
    | some pm =>
      rw [selectBackend_eval_ok avail d opts pm hfa]
      obtain ⟨t, ht, hav, -⟩ := firstAvailable_fst_some avail opts pm hfa
      refine ⟨by simp, ?_, ?_, ?_⟩
      · intro h
        cases h
      · constructor
        · intro h
          cases h
        · rintro ⟨opts2, hopts2, hall⟩
          injection hopts2 with h2
          subst h2
          exfalso
          rw [hall t ht] at hav
          cases hav
      · constructor
        · intro _
          exact ⟨opts, rfl, t, ht, hav⟩
        · intro _
          exact ⟨pm, rfl⟩
    | none =>
      rw [selectBackend_eval_err avail d opts hfa]
      refine ⟨?_, ?_, ?_, ?_⟩
      · simp only [iff_false]
        constructor
        · intro h
          simp only [Except.error.injEq, PyExc.exception.injEq] at h
          exact absurd h.symm (resolveMsgs_ne d)
        · intro h
          cases h
      · intro h
        cases h
      · constructor
        · intro _
          exact ⟨opts, rfl, (firstAvailable_fst_none avail opts).mp hfa⟩
        · intro _
          rfl
      · constructor
        · rintro ⟨pm, hpm⟩
          cases hpm
        · rintro ⟨opts2, hopts2, t, ht, hav⟩
          injection hopts2 with h2
          subst h2
          obtain ⟨pm, hpm⟩ := (firstAvailable_fst_isSome avail opts).mpr ⟨t, ht, hav⟩
          rw [hpm] at hfa
          cases hfa

/-- C4 witness: concrete instances of each error case and the success
case of `resolve_error_cases`. -/
theorem resolve_error_cases_witness :
    (get_package_manager_for_distro (fun _ => false) "gentoo").1 =
      Except.error
        (PyExc.exception ("No supported package manager found for distro: " ++ "gentoo"))
  ∧ (get_package_manager_for_distro (fun _ => false) "gentoo").2 = []
  ∧ (get_package_manager_for_distro (fun _ => false) "fedora").1 =
      Except.error
        (PyExc.exception ("No supported package manager available for distro: " ++ "fedora"))
  ∧ (∃ pm, (get_package_manager_for_distro (fun t => t == "pacman") "arch").1 = Except.ok pm) :=
  ⟨(resolve_error_cases (fun _ => false) "gentoo").1.mpr rfl,
   (resolve_error_cases (fun _ => false) "gentoo").2.1 rfl,
   (resolve_error_cases (fun _ => false) "fedora").2.2.1.mpr
     ⟨[("dnf", dnfManager)], rfl, by decide⟩,
   (resolve_error_cases (fun t => t == "pacman") "arch").2.2.2.mpr
     ⟨[("pacman", pacmanManager)], rfl, ("pacman", pacmanManager), by decide⟩⟩

/-- C5 counterexample: on a release file whose ID line is quoted,
`get_distro_id` returns the value with the quotes still on it, not the
claimed quote-trimmed "ubuntu". -/
theorem get_distro_id_keeps_quotes :
    get_distro_id (Except.ok ["NAME=\"Ubuntu\"\n", "ID=\"ubuntu\"\n"]) = Except.ok "\"ubuntu\""
  ∧ ("\"ubuntu\"" : String) ≠ "ubuntu" :=
  ⟨rfl, by decide⟩

/-- C5 (corrected): `get_distro_id` returns the remainder of the first
line beginning with "ID=", trimmed of whitespace only (quotes are not
removed); it fails with the distro-unknown exception when no line
matches, and re-raises the OS error when the file is unreadable. -/
theorem get_distro_id_spec (lines : List String) :
    ((∃ l ∈ lines, pyStartsWith l "ID=" = true) →
       ∃ pre line post,
         lines = pre ++ line :: post ∧
         (∀ x ∈ pre, pyStartsWith x "ID=" = false) ∧
         pyStartsWith line "ID=" = true ∧
         get_distro_id (Except.ok lines) = Except.ok (pyStrip (pyDropChars line 3)))
  ∧ ((∀ l ∈ lines, pyStartsWith l "ID=" = false) →
       get_distro_id (Except.ok lines) =
         Except.error (PyExc.exception "Could not determine distro from /etc/os-release"))
  ∧ (∀ cause, get_distro_id (Except.error cause) = Except.error (PyExc.osError cause)) := by
  refine ⟨?_, ?_, fun _ => rfl⟩
  · rintro ⟨l, hl, hpl⟩
    obtain ⟨line, hfind⟩ := find?_isSome_of_mem (fun x => pyStartsWith x "ID=") lines l hl hpl
    obtain ⟨pre, post, heq, hpre, hline⟩ :=
      find?_split (fun x => pyStartsWith x "ID=") lines line hfind
    refine ⟨pre, line, post, heq, hpre, hline, ?_⟩
    rw [get_distro_id_eval_ok, hfind]
  · intro hall
    rw [get_distro_id_eval_ok, find?_eq_none_of_all (fun x => pyStartsWith x "ID=") lines hall]

/-- C5 witness: `get_distro_id_spec` at a readable two-line file, at a
file with no ID line, and at an unreadable file. -/
theorem get_distro_id_spec_witness :
    (∃ pre line post,
       (["NAME=debian\n", "ID=debian\n"] : List String) = pre ++ line :: post ∧
       (∀ x ∈ pre, pyStartsWith x "ID=" = false) ∧
       pyStartsWith line "ID=" = true ∧
       get_distro_id (Except.ok ["NAME=debian\n", "ID=debian\n"]) =
         Except.ok (pyStrip (pyDropChars line 3)))
  ∧ get_distro_id (Except.ok ["VERSION=1\n"]) =
      Except.error (PyExc.exception "Could not determine distro from /etc/os-release")
  ∧ get_distro_id (Except.error "unreadable") = Except.error (PyExc.osError "unreadable") :=
  ⟨(get_distro_id_spec ["NAME=debian\n", "ID=debian\n"]).1 ⟨"ID=debian\n", by decide⟩,
   (get_distro_id_spec ["VERSION=1\n"]).2.1 (by decide),
   (get_distro_id_spec ["VERSION=1\n"]).2.2 "unreadable"⟩

/-- C6 counterexample: the source's Apt count template is not equal,
character for character, to the spec table's row: the line continuation
inside the Python string literal embeds 35 consecutive spaces. -/
theorem apt_count_template_ne_spec :
    aptManager.count_updates_cmd ≠ spec_apt_count_cmd := by decide

/-- C6 (corrected): every backend template equals its spec table row
character for character, except the Apt count template, which carries a
35-space run (one space plus the 34-space continuation-line
indentation) where the spec row has a single space; collapsing space
runs makes it equal to the spec row. -/
theorem backend_templates :
    aptManager.check_updates_cmd = "apt-get -q update"
  ∧ aptManager.upgrade_cmd = "apt upgrade -y"
  ∧ aptManager.count_updates_cmd =
      "apt-get -q -y --ignore-hold --allow-change-held-packages" ++
        String.mk (List.replicate 35 (Char.ofNat 32)) ++
        "--allow-unauthenticated -s dist-upgrade | grep ^Inst | wc -l"
  ∧ normSpaces aptManager.count_updates_cmd = spec_apt_count_cmd
  ∧ dnfManager.check_updates_cmd = "dnf check-update"
  ∧ dnfManager.count_updates_cmd = spec_dnf_count_cmd
  ∧ dnfManager.upgrade_cmd = "dnf upgrade"
  ∧ pacmanManager.check_updates_cmd = "pacman -Qu"
  ∧ pacmanManager.count_updates_cmd = "pacman -Qu | wc -l"
  ∧ pacmanManager.upgrade_cmd = "pacman -Syu" :=
  ⟨rfl, rfl, by decide, by decide, rfl, rfl, rfl, rfl, rfl, rfl⟩

/-- C7 (code_bug): in an environment where the upgrade command launches
and exits 0, `run_upgrade` does not signal completion: `upgrade()`
returns the `None` that `run_command` produced, and
`upgrade_process.returncode` raises `AttributeError`. -/
theorem run_upgrade_crashes :
    run_upgrade aptManager envAllSucceed = Except.error (PyExc.attributeError "returncode")
  ∧ envAllSucceed aptManager.upgrade_cmd = LaunchOutcome.completed ⟨0, "5\n", ""⟩ :=
  ⟨rfl, rfl⟩

/-- C8 (code_bug): when the launch of a command fails, the raw OSError
propagates to `run_command`'s caller unwrapped, and is not the
Exception("Failed to run command: ...") the handler would build: that
handler catches only `CalledProcessError`, which `subprocess.run`
never raises without `check=True`. -/
theorem run_command_launch_failure_raw :
    run_command envLaunchFails "apt upgrade -y" =
      Except.error (PyExc.osError "No such file or directory")
  ∧ PyExc.osError "No such file or directory" ≠
      PyExc.exception ("Failed to run command: " ++ "apt upgrade -y") :=
  ⟨rfl, by decide⟩

/-- C9 (confirmed): a constructed Nala backend agrees with a
constructed Apt backend on the check and count templates and differs
from it exactly in the upgrade template, which is "nala upgrade -y". -/
theorem nala_overrides_only_upgrade :
    nalaManager.check_updates_cmd = aptManager.check_updates_cmd
  ∧ nalaManager.count_updates_cmd = aptManager.count_updates_cmd
  ∧ nalaManager.upgrade_cmd = "nala upgrade -y"
  ∧ nalaManager.upgrade_cmd ≠ aptManager.upgrade_cmd :=
  ⟨rfl, rfl, rfl, by decide⟩

/-- C10 (confirmed): whenever the notify-send execution raises, the
notification method raises `NameError` for the unbound variable `cmd`
(never the intended failed-to-run Exception), and when execution does
not raise it raises nothing. -/
theorem send_notification_raises_wrong_error (launch : Except String Unit) :
    (∀ c, launch = Except.error c →
        sendNotification launch = Except.error (PyExc.nameError "cmd")
      ∧ ∀ m, sendNotification launch ≠ Except.error (PyExc.exception m))
  ∧ (launch = Except.ok () → sendNotification launch = Except.ok ()) := by
  constructor
  · intro c hc
    subst hc
    refine ⟨rfl, ?_⟩
    intro m h
    cases h
  · intro h
    subst h
    rfl

/-- C10 witness: the raising and non-raising cases of
`send_notification_raises_wrong_error` at concrete inputs. -/
theorem send_notification_witness :
    sendNotification (Except.error "notify-send missing") = Except.error (PyExc.nameError "cmd")
  ∧ sendNotification (Except.ok ()) = Except.ok () :=
  ⟨((send_notification_raises_wrong_error (Except.error "notify-send missing")).1
      "notify-send missing" rfl).1,
   (send_notification_raises_wrong_error (Except.ok ())).2 rfl⟩
